import Mathlib

/-!
# PersistentCoin chaincode: embedding and verified properties

Shallow embedding of `PersistentCoin.go` (a Hyperledger Fabric chaincode with
two business functions, `CreatePersistentCoinAccount` and
`TransferPersistentCoin`).

Conventions of the embedding.

* The chaincode stub (`shim.ChaincodeStubInterface`) is explicit state that is
  threaded through every call: the committed world state, the write set staged
  so far, a trace of every store access, and two oracles saying which accesses
  the store fails.
* `uint64` values are natural numbers; the two arithmetic statements of the
  transfer are written with their reduction modulo `2 ^ 64`.
* The mixed use of `string`, `[]byte` and `PersistentCoinAccountId` in the
  source is read with the evident conversions; a nil byte slice is the empty
  string when handed to the JSON decoder.
* `encoding/json` is a library outside the repository. Its two entry points
  are embedded by what they do for the calls the source makes, see
  `json.Unmarshal`.
-/

namespace Chaincode

/-! ## Data model (source lines 10-31) -/

/-- Go `type PersistentCoin uint64`. -/
abbrev PersistentCoin := Nat

/-- Go `type PersistentCoinAccountId string`. -/
abbrev PersistentCoinAccountId := String

/-- Number of values of a `uint64`. -/
def uint64Size : Nat := 2 ^ 64

/-- Key-value store record: the asset profile of one account. -/
structure PersistentCoinAccount where
  AccountID : PersistentCoinAccountId
  Balance : PersistentCoin
deriving DecidableEq, Repr

/-- Contract of the business function that creates an account. -/
structure PersistentCoinAccountCreateContract where
  AccountId : PersistentCoinAccountId
  Balance : PersistentCoin
deriving DecidableEq, Repr

/-- Contract of the business function that transfers coins. -/
structure CoinTransferContract where
  FromAccountId : PersistentCoinAccountId
  ToAccountId : PersistentCoinAccountId
  CoinCount : PersistentCoin
deriving DecidableEq, Repr

/-- Go zero value of `PersistentCoinAccount` (what `var a PersistentCoinAccount` holds). -/
def PersistentCoinAccount.zero : PersistentCoinAccount := ⟨"", 0⟩

/-- Go zero value of `PersistentCoinAccountCreateContract`. -/
def PersistentCoinAccountCreateContract.zero : PersistentCoinAccountCreateContract := ⟨"", 0⟩

/-- Go zero value of `CoinTransferContract`. -/
def CoinTransferContract.zero : CoinTransferContract := ⟨"", "", 0⟩

/-! ## The peer response (`pb.Response`, built by `shim.Success` and `shim.Error`) -/

/-- A `pb.Response`: status OK with a payload, or status ERROR with a message. -/
inductive Response where
  | success (payload : Option String)
  | error (message : String)
deriving DecidableEq, Repr

/-- Go `shim.Success(payload)`. -/
def shim.Success (payload : Option String) : Response := Response.success payload

/-- Go `shim.Error(msg)`. -/
def shim.Error (msg : String) : Response := Response.error msg

/-- A response is a rejection when it carries the ERROR status. -/
def Response.isRejection : Response → Bool
  | Response.success _ => false
  | Response.error _ => true

/-! ## The chaincode stub -/

/-- One call made on the stub. -/
inductive Access where
  | get (key : String)
  | put (key : String) (value : String)
deriving DecidableEq, Repr

/-- The stub handed to a chaincode invocation. `state` is the committed world
state that `GetState` reads, `writes` the write set staged by `PutState` (in
call order), `trace` every call made on the stub, and `getFault` / `putFault`
give the error text of the store accesses that fail. -/
structure ChaincodeStub where
  state : List (String × String)
  getFault : String → Option String
  putFault : String → Option String
  trace : List Access
  writes : List (String × String)

/-- Go `stub.GetState(key)`: `(value, err)`. A failing store gives an error; a
key without a record gives `(nil, nil)`, which is `Except.ok none`. -/
def ChaincodeStub.GetState (stub : ChaincodeStub) (key : String) :
    ChaincodeStub × Except String (Option String) :=
  let stub1 := { stub with trace := stub.trace ++ [Access.get key] }
  match stub.getFault key with
  | some e => (stub1, Except.error e)
  | none => (stub1, Except.ok (stub.state.lookup key))

/-- Go `stub.PutState(key, value)`: the returned `err` (`none` is nil). A write
that does not fail is appended to the write set. -/
def ChaincodeStub.PutState (stub : ChaincodeStub) (key value : String) :
    ChaincodeStub × Option String :=
  let stub1 := { stub with trace := stub.trace ++ [Access.put key value] }
  match stub.putFault key with
  | some e => (stub1, some e)
  | none => ({ stub1 with writes := stub1.writes ++ [(key, value)] }, none)

/-- A stub at the start of an invocation: nothing accessed, nothing staged. -/
def ChaincodeStub.fresh (state : List (String × String))
    (getFault putFault : String → Option String) : ChaincodeStub :=
  { state := state, getFault := getFault, putFault := putFault, trace := [], writes := [] }

/-- A store that never fails. -/
def noFault : String → Option String := fun _ => none

/-! ## `encoding/json` as the source calls it -/

/-- The part of `encoding/json` the embedding leaves open: the text
`json.Marshal` produces for an account record. -/
structure JsonLib where
  marshalAccount : PersistentCoinAccount → String

/-- The non-nil error `json.Unmarshal` returns for a target that is not a
pointer: a `*json.SyntaxError` when the input is not well-formed JSON, else a
`*json.InvalidUnmarshalError`. The source only compares the error with nil, so
the two are not told apart. -/
inductive json.UnmarshalError where
  | refused
deriving DecidableEq, Repr

/-- Go `json.Unmarshal(data, v)` for the calls of this source, every one of which
passes the struct `v` itself and not `&v` (lines 60, 87, 95, 105). The library
documents: "If v is nil or not a pointer, Unmarshal returns an
InvalidUnmarshalError"; it checks the input for well-formedness first and then
refuses the target, so the call always returns a non-nil error. Since Go passes
`v` by value, the variable of the caller keeps the value it had. The result is
the value of that variable after the call together with the returned error
(`none` is nil). -/
def json.Unmarshal {α : Type} (_data : String) (v : α) :
    α × Option json.UnmarshalError :=
  (v, some json.UnmarshalError.refused)

/-- Go `json.Marshal(account)`; it cannot fail for this struct. -/
def json.Marshal (J : JsonLib) (account : PersistentCoinAccount) : String :=
  J.marshalAccount account

/-! ## Business functions (source lines 55-133) -/

/-- Source `CreatePersistentCoinAccount` (lines 55-79). The receiver is an empty
struct and is left out. The result is the stub after the call and the response. -/
def CreatePersistentCoinAccount (stub : ChaincodeStub)
    (serializedContract : String) : ChaincodeStub × Response :=
  let contract : PersistentCoinAccountCreateContract :=
    (json.Unmarshal serializedContract PersistentCoinAccountCreateContract.zero).1
  -- check account already exist
  match stub.GetState contract.AccountId with
  | (stub, Except.error _) =>
    (stub, shim.Error ("rejecting endorsement: Persistent Coin AccountId: " ++
      contract.AccountId ++ " already exist!"))
  | (stub, Except.ok _) =>
    -- since account does not exist
    match stub.PutState contract.AccountId serializedContract with
    | (stub, some err) =>
      (stub, shim.Error ("rejecting endorsement: Problem creating Persistent Account Id: " ++
        contract.AccountId ++ " " ++ err))
    | (stub, none) => (stub, shim.Success none)

/-- Source `TransferPersistentCoin` (lines 81-133). The result is the stub after
the call and the response. -/
def TransferPersistentCoin (J : JsonLib) (stub : ChaincodeStub)
    (serializedContract : String) : ChaincodeStub × Response :=
  let contract : CoinTransferContract :=
    (json.Unmarshal serializedContract CoinTransferContract.zero).1
  match stub.GetState contract.FromAccountId with
  | (stub, Except.error _) =>
    (stub, shim.Error ("rejecting endorsement: Persistent Coin AccountId: " ++
      contract.FromAccountId ++ " does not exist!"))
  | (stub, Except.ok serializedAccountBytes) =>
    match json.Unmarshal (serializedAccountBytes.getD "") PersistentCoinAccount.zero with
    | (_, some _) =>
      (stub, shim.Error "rejecting endorsement: json unmarshaling failed for from account")
    | (fromAccount, none) =>
      match stub.GetState contract.ToAccountId with
      | (stub, Except.error _) =>
        (stub, shim.Error ("rejecting endorsement: Persistent Coin AccountId: " ++
          contract.ToAccountId ++ " does not exist!"))
      | (stub, Except.ok serializedAccountBytes) =>
        match json.Unmarshal (serializedAccountBytes.getD "") PersistentCoinAccount.zero with
        | (_, some _) =>
          (stub, shim.Error "rejecting endorsement: json unmarshaling failed for to account")
        | (toAccount, none) =>
          -- check if enough coins is available in the account for transfer
          if contract.CoinCount > fromAccount.Balance then
            (stub, shim.Error "rejecting endorsement: not enough coins available")
          else
            let fromAccount : PersistentCoinAccount :=
              { fromAccount with
                Balance := (fromAccount.Balance + uint64Size - contract.CoinCount) % uint64Size }
            let toAccount : PersistentCoinAccount :=
              { toAccount with
                Balance := (toAccount.Balance + contract.CoinCount) % uint64Size }
            -- propose ledger update for persistent coin account transfer
            match stub.PutState fromAccount.AccountID (json.Marshal J fromAccount) with
            | (stub, some err) =>
              (stub, shim.Error ("rejecting endorsement: error saving from account: " ++
                fromAccount.AccountID ++ " " ++ err))
            | (stub, none) =>
              match stub.PutState toAccount.AccountID (json.Marshal J toAccount) with
              | (stub, some err) =>
                (stub, shim.Error ("rejecting endorsement: error saving from account: " ++
                  toAccount.AccountID ++ " " ++ err))
              | (stub, none) => (stub, shim.Success none)

/-! ## Dispatch (source lines 37-53) -/

/-- Source `Init`. -/
def Init (stub : ChaincodeStub) : ChaincodeStub × Response :=
  (stub, shim.Success none)

/-- Source `Invoke` (lines 43-53). `function` and `args` are what
`stub.GetFunctionAndParameters()` returns. The result is `none` when the index
expression `args[0]` is out of range (a run-time panic in Go). In the last
branch the response built by `shim.Error` is dropped and control falls through
to `return shim.Success(nil)`. -/
def Invoke (J : JsonLib) (stub : ChaincodeStub) (function : String) (args : List String) :
    Option (ChaincodeStub × Response) :=
  if function = "CreatePersistentCoinAccount" then
    match args with
    | [] => none
    | arg0 :: _ => some (CreatePersistentCoinAccount stub arg0)
  else if function = "TransferPersistentCoin" then
    match args with
    | [] => none
    | arg0 :: _ => some (TransferPersistentCoin J stub arg0)
  else
    let _dropped := shim.Error "rejecting endorsement - unknown business invoke function"
    some (stub, shim.Success none)

/-! ## Committing a write set, and runs of transactions -/

/-- World state with the record under `key` set to `value`. -/
def setRecord : List (String × String) → String → String → List (String × String)
  | [], key, value => [(key, value)]
  | (k, v) :: rest, key, value =>
    if k = key then (key, value) :: rest else (k, v) :: setRecord rest key value

/-- World state after a write set is applied, first write first. -/
def applyWrites (state : List (String × String)) (writes : List (String × String)) :
    List (String × String) :=
  writes.foldl (fun st w => setRecord st w.1 w.2) state

/-- World state that results when everything the stub has staged is committed. -/
def ChaincodeStub.committed (stub : ChaincodeStub) : List (String × String) :=
  applyWrites stub.state stub.writes

/-- One transaction submitted to the ledger: the serialized request, and how
the store behaves while it runs. -/
structure Transaction where
  request : String
  getFault : String → Option String
  putFault : String → Option String

/-- World state after a sequence of transfer transactions, each run on a fresh
stub over the state its predecessor left, with its staged writes committed. -/
def transferLedger (J : JsonLib) :
    List (String × String) → List Transaction → List (String × String)
  | state, [] => state
  | state, tx :: rest =>
    transferLedger J
      (TransferPersistentCoin J (ChaincodeStub.fresh state tx.getFault tx.putFault)
        tx.request).1.committed rest

/-- Sum of the balances of all records of a world state, each record read by
`balanceOf`. -/
def totalBalance (balanceOf : String → Nat) (state : List (String × String)) : Nat :=
  (state.map (fun kv => balanceOf kv.2)).sum

/-! ## Concrete data of the scenario of the specification -/

/-- Account text as `encoding/json` writes it for identifiers that need no
escaping. -/
def sampleJson : JsonLib :=
  { marshalAccount := fun a =>
      "\x7b\"AccountID\":\"" ++ a.AccountID ++ "\",\"Balance\":" ++ toString a.Balance ++ "\x7d" }

/-- Stored record of account `A` with balance 100. -/
def recordA100 : String := "\x7b\"AccountID\":\"A\",\"Balance\":100\x7d"

/-- Stored record of account `B` with balance 0. -/
def recordB0 : String := "\x7b\"AccountID\":\"B\",\"Balance\":0\x7d"

/-- Stored record of account `A` with balance 60. -/
def recordA60 : String := "\x7b\"AccountID\":\"A\",\"Balance\":60\x7d"

/-- Stored record of account `B` with balance 40. -/
def recordB40 : String := "\x7b\"AccountID\":\"B\",\"Balance\":40\x7d"

/-- Request `Transfer(A, B, 40)`. -/
def transferAB40 : String :=
  "\x7b\"FromAccountId\":\"A\",\"ToAccountId\":\"B\",\"CoinCount\":40\x7d"

/-- Request `Transfer(A, B, 1000)`. -/
def transferAB1000 : String :=
  "\x7b\"FromAccountId\":\"A\",\"ToAccountId\":\"B\",\"CoinCount\":1000\x7d"

/-- Request `Transfer(A, "nonexistent", 1)`. -/
def transferAMissing1 : String :=
  "\x7b\"FromAccountId\":\"A\",\"ToAccountId\":\"nonexistent\",\"CoinCount\":1\x7d"

/-- Request `CreateAccount(A, 100)`. -/
def createA100 : String := "\x7b\"AccountId\":\"A\",\"Balance\":100\x7d"

/-- Request `CreateAccount(A, 5)`. -/
def createA5 : String := "\x7b\"AccountId\":\"A\",\"Balance\":5\x7d"

/-- Request `CreateAccount("", 5)`: the account identifier is empty. -/
def createEmptyId : String := "\x7b\"AccountId\":\"\",\"Balance\":5\x7d"

/-- A store that refuses to write under the empty key and accepts every other
write. -/
def refuseEmptyKey : String → Option String :=
  fun key => if key = "" then some "key must not be an empty string" else none

/-- A store that answers every read with an error. -/
def keyNotFound : String → Option String := fun _ => some "key not found"

/-- Request `Transfer("", B, 1)`: the sender identifier is empty. -/
def transferEmptyFrom : String :=
  "\x7b\"FromAccountId\":\"\",\"ToAccountId\":\"B\",\"CoinCount\":1\x7d"

/-- A store whose reads all fail because the ledger cannot be reached. -/
def storeUnavailable : String → Option String := fun _ => some "ledger unavailable"

/-- Stored bytes that are not an account record. -/
def recordCorrupt : String := "not an account record"

/-- Request `CreateAccount(B, 0)`. -/
def createB0 : String := "\x7b\"AccountId\":\"B\",\"Balance\":0\x7d"

/-- Request `Transfer(B, A, 40)`. -/
def transferBA40 : String :=
  "\x7b\"FromAccountId\":\"B\",\"ToAccountId\":\"A\",\"CoinCount\":40\x7d"

/-- Request `Transfer(A, B, 0)`. -/
def transferAB0 : String :=
  "\x7b\"FromAccountId\":\"A\",\"ToAccountId\":\"B\",\"CoinCount\":0\x7d"

/-! ## What the two business functions compute -/

/-- The stub after `GetState`: only the trace has grown. -/
theorem getState_stub (stub : ChaincodeStub) (key : String) :
    (stub.GetState key).1 = { stub with trace := stub.trace ++ [Access.get key] } := by
  unfold ChaincodeStub.GetState
  cases stub.getFault key <;> rfl

/-- Closed form of `TransferPersistentCoin`: the request is never decoded, the
store is read once under the empty key, and the call ends in one of its first
two rejections. -/
theorem transfer_result (J : JsonLib) (stub : ChaincodeStub) (request : String) :
    TransferPersistentCoin J stub request =
      ({ stub with trace := stub.trace ++ [Access.get ""] },
        Response.error (match stub.getFault "" with
          | some _ => "rejecting endorsement: Persistent Coin AccountId:  does not exist!"
          | none => "rejecting endorsement: json unmarshaling failed for from account")) := by
  unfold TransferPersistentCoin ChaincodeStub.GetState
  cases h : stub.getFault "" <;>
    simp [json.Unmarshal, CoinTransferContract.zero, shim.Error, h]

/-- Closed form of `CreatePersistentCoinAccount`: the store is read under the
empty key, and unless that read or the following write fails, the raw request
is staged under the empty key. -/
theorem create_result (stub : ChaincodeStub) (request : String) :
    CreatePersistentCoinAccount stub request =
      match stub.getFault "" with
      | some _ =>
        ({ stub with trace := stub.trace ++ [Access.get ""] },
          Response.error "rejecting endorsement: Persistent Coin AccountId:  already exist!")
      | none =>
        match stub.putFault "" with
        | some e =>
          ({ stub with trace := stub.trace ++ [Access.get "", Access.put "" request] },
            Response.error
              ("rejecting endorsement: Problem creating Persistent Account Id:  " ++ e))
        | none =>
          ({ stub with
              trace := stub.trace ++ [Access.get "", Access.put "" request]
              writes := stub.writes ++ [("", request)] },
            Response.success none) := by
  unfold CreatePersistentCoinAccount ChaincodeStub.GetState
  cases h : stub.getFault ""
  · cases h2 : stub.putFault "" <;>
      simp [json.Unmarshal, PersistentCoinAccountCreateContract.zero, shim.Error,
        shim.Success, ChaincodeStub.PutState, h, h2, String.append_assoc]
  · simp [json.Unmarshal, PersistentCoinAccountCreateContract.zero, shim.Error, h]

/-- A transfer leaves the world state it would commit as it found it. -/
theorem transfer_committed (J : JsonLib) (stub : ChaincodeStub) (request : String) :
    (TransferPersistentCoin J stub request).1.committed = stub.committed := by
  rw [transfer_result]
  rfl

/-- A run of transfer transactions ends in the world state it started from. -/
theorem transferLedger_eq (J : JsonLib) (txs : List Transaction) :
    ∀ state : List (String × String), transferLedger J state txs = state := by
  induction txs with
  | nil => intro state; rfl
  | cons tx rest ih =>
    intro state
    simp only [transferLedger, transfer_committed]
    rw [ih]
    rfl

/-! ## Conservation (C1) -/

/-- C1. Conservation: over any sequence of transfer transactions the sum of the
balances of all records is the same at the end as at the start, whatever
function reads a balance out of a record; and a single transfer leaves the
world state it would commit, hence the balances of its two accounts, as it
found them. No premise of success is needed: no transfer stages a write. -/
theorem transfer_sequence_conserves_total (J : JsonLib) (balanceOf : String → Nat)
    (state : List (String × String)) (txs : List Transaction)
    (stub : ChaincodeStub) (request : String) :
    totalBalance balanceOf (transferLedger J state txs) = totalBalance balanceOf state ∧
      (TransferPersistentCoin J stub request).1.committed = stub.committed := by
  rw [transferLedger_eq]
  exact ⟨rfl, transfer_committed J stub request⟩

/-! ## The scenario of the specification (C2, C3, C8) -/

/-- C2, evaluated on the scenario `A = 100`, `B = 0`, `Transfer(A, B, 40)`: the
call is rejected with the decoding message for the sender, stages no write, and
the records of `A` and `B` stay at 100 and 0. -/
theorem transfer_scenario_is_rejected :
    (TransferPersistentCoin sampleJson
        (ChaincodeStub.fresh [("A", recordA100), ("B", recordB0)] noFault noFault)
        transferAB40).2
      = Response.error "rejecting endorsement: json unmarshaling failed for from account" ∧
    (TransferPersistentCoin sampleJson
        (ChaincodeStub.fresh [("A", recordA100), ("B", recordB0)] noFault noFault)
        transferAB40).1.writes = [] ∧
    (TransferPersistentCoin sampleJson
        (ChaincodeStub.fresh [("A", recordA100), ("B", recordB0)] noFault noFault)
        transferAB40).1.committed = [("A", recordA100), ("B", recordB0)] := by
  decide

/-- C3, evaluated on the scenario `A = 60`, `B = 40`, `Transfer(A, B, 1000)`: the
call is rejected and stages no write, but the rejection is the decoding one for
the sender, not the one of the balance check of line 110. -/
theorem overdraft_rejected_with_decoding_message :
    (TransferPersistentCoin sampleJson
        (ChaincodeStub.fresh [("A", recordA60), ("B", recordB40)] noFault noFault)
        transferAB1000).2
      = Response.error "rejecting endorsement: json unmarshaling failed for from account" ∧
    (TransferPersistentCoin sampleJson
        (ChaincodeStub.fresh [("A", recordA60), ("B", recordB40)] noFault noFault)
        transferAB1000).2
      ≠ Response.error "rejecting endorsement: not enough coins available" ∧
    (TransferPersistentCoin sampleJson
        (ChaincodeStub.fresh [("A", recordA60), ("B", recordB40)] noFault noFault)
        transferAB1000).1.writes = [] := by
  decide

/-! ## Account creation (C4, C5) -/

/-- C4, evaluated on a world state that holds a record for `A` and the request
`CreateAccount(A, 5)`: on a store without faults the call answers success and
stages a write; on a store that refuses the empty key it answers with the
message of the failed write. In neither case is the answer the
already-exists rejection of line 66. -/
theorem create_on_existing_account_not_refused :
    (CreatePersistentCoinAccount
        (ChaincodeStub.fresh [("A", recordA100)] noFault noFault) createA5).2
      = Response.success none ∧
    (CreatePersistentCoinAccount
        (ChaincodeStub.fresh [("A", recordA100)] noFault noFault) createA5).1.writes
      = [("", createA5)] ∧
    (CreatePersistentCoinAccount
        (ChaincodeStub.fresh [("A", recordA100)] noFault refuseEmptyKey) createA5).2
      = Response.error ("rejecting endorsement: Problem creating Persistent Account Id:  " ++
          "key must not be an empty string") := by
  decide

/-- C5, evaluated on the empty world state and the request
`CreateAccount(A, 100)`: on a store without faults the one write staged is keyed
by the empty string, not by `A`, and committing it leaves no record under `A`;
on a store that refuses the empty key the call is rejected and stages nothing. -/
theorem create_stages_under_empty_key :
    (CreatePersistentCoinAccount (ChaincodeStub.fresh [] noFault noFault) createA100).2
      = Response.success none ∧
    (CreatePersistentCoinAccount (ChaincodeStub.fresh [] noFault noFault) createA100).1.writes
      = [("", createA100)] ∧
    (CreatePersistentCoinAccount
        (ChaincodeStub.fresh [] noFault noFault) createA100).1.committed.lookup "A" = none ∧
    (CreatePersistentCoinAccount
        (ChaincodeStub.fresh [] noFault refuseEmptyKey) createA100).2.isRejection = true ∧
    (CreatePersistentCoinAccount
        (ChaincodeStub.fresh [] noFault refuseEmptyKey) createA100).1.writes = [] := by
  decide

/-! ## Transfers that end in a rejection (C6, C7, C9) -/

/-- C6. Self-transfer: for every account `A`, every amount `n` and every wire
encoding of requests, `TransferPersistentCoin` on `(A, A, n)` is rejected, and
the record stored under `A` after the call is the one stored before it. -/
theorem self_transfer_rejected_and_unchanged (J : JsonLib)
    (encode : CoinTransferContract → String) (stub : ChaincodeStub)
    (A : PersistentCoinAccountId) (n : PersistentCoin) :
    (TransferPersistentCoin J stub (encode ⟨A, A, n⟩)).2.isRejection = true ∧
      (TransferPersistentCoin J stub (encode ⟨A, A, n⟩)).1.committed.lookup A
        = stub.committed.lookup A := by
  rw [transfer_result]
  exact ⟨rfl, rfl⟩

/-- C7. No silent wrap: for every world state and request, `TransferPersistentCoin`
does not answer success and adds nothing to the write set, so no call succeeds
with a receiver balance reduced modulo `2 ^ 64`, and none leaves a sender
balance that underflowed. -/
theorem transfer_never_succeeds_wrapped (J : JsonLib) (stub : ChaincodeStub)
    (request : String) (payload : Option String) :
    (TransferPersistentCoin J stub request).2 ≠ Response.success payload ∧
      (TransferPersistentCoin J stub request).1.writes = stub.writes := by
  rw [transfer_result]
  exact ⟨fun h => Response.noConfusion h, rfl⟩

/-- C9. Atomicity: for every stub, whichever writes its store fails, and every
request, `TransferPersistentCoin` answers with a rejection, the write set never
grows by exactly one write, and the world state that would be committed is the
one before the call: the update of one side alone is never staged. -/
theorem transfer_never_half_applied (J : JsonLib) (stub : ChaincodeStub)
    (request : String) :
    (TransferPersistentCoin J stub request).2.isRejection = true ∧
      (TransferPersistentCoin J stub request).1.writes.length ≠ stub.writes.length + 1 ∧
      (TransferPersistentCoin J stub request).1.committed = stub.committed := by
  rw [transfer_result]
  exact ⟨rfl, Nat.ne_of_lt (Nat.lt_succ_self _), rfl⟩

/-- C8, evaluated on a world state that holds `A` only and the request
`Transfer(A, "nonexistent", 1)`: on a store without faults the answer is the
decoding rejection for the sender and not a message that names `nonexistent`;
on a store whose reads fail the answer is the does-not-exist message with an
empty identifier. No write is staged either way. -/
theorem transfer_to_missing_account_message :
    (TransferPersistentCoin sampleJson
        (ChaincodeStub.fresh [("A", recordA100)] noFault noFault) transferAMissing1).2
      = Response.error "rejecting endorsement: json unmarshaling failed for from account" ∧
    (TransferPersistentCoin sampleJson
        (ChaincodeStub.fresh [("A", recordA100)] noFault noFault) transferAMissing1).2
      ≠ Response.error
          "rejecting endorsement: Persistent Coin AccountId: nonexistent does not exist!" ∧
    (TransferPersistentCoin sampleJson
        (ChaincodeStub.fresh [("A", recordA100)] keyNotFound noFault) transferAMissing1).2
      = Response.error "rejecting endorsement: Persistent Coin AccountId:  does not exist!" ∧
    (TransferPersistentCoin sampleJson
        (ChaincodeStub.fresh [("A", recordA100)] noFault noFault) transferAMissing1).1.writes
      = [] := by
  decide

/-! ## Requests with an empty identifier (C10) -/

/-- C10 fails as stated: `CreateAccount("", 5)` on the empty world state reads
the store and then writes to it, and answers success; `Transfer("", B, 1)`
reads the store before it answers. -/
theorem empty_identifier_reaches_store :
    (CreatePersistentCoinAccount (ChaincodeStub.fresh [] noFault noFault) createEmptyId).1.trace
      = [Access.get "", Access.put "" createEmptyId] ∧
    (CreatePersistentCoinAccount (ChaincodeStub.fresh [] noFault noFault) createEmptyId).2
      = Response.success none ∧
    (TransferPersistentCoin sampleJson
        (ChaincodeStub.fresh [("B", recordB0)] noFault noFault) transferEmptyFrom).1.trace
      = [Access.get ""] := by
  decide

/-- C10 as amended. Neither business function inspects the identifiers of its
request before it turns to the store: for every stub and every request, the
first thing either function does is a `GetState`. -/
theorem operations_begin_with_store_read (J : JsonLib) (stub : ChaincodeStub)
    (request : String) :
    (∃ key rest, (CreatePersistentCoinAccount stub request).1.trace
        = stub.trace ++ Access.get key :: rest) ∧
      (∃ key rest, (TransferPersistentCoin J stub request).1.trace
        = stub.trace ++ Access.get key :: rest) := by
  refine ⟨?_, ⟨"", [], by rw [transfer_result]⟩⟩
  rw [create_result]
  cases stub.getFault ""
  · cases stub.putFault ""
    · exact ⟨"", [Access.put "" request], rfl⟩
    · exact ⟨"", [Access.put "" request], rfl⟩
  · exact ⟨"", [], rfl⟩

/-! ## Failing reads and unknown functions (C11, C12) -/

/-- C11, evaluated on a store whose reads fail with "ledger unavailable":
`CreateAccount(A, 100)` is answered with the already-exist message and
`Transfer(A, B, 40)` with the does-not-exist message; neither answer carries
the error of the store. -/
theorem read_failure_reported_as_business_rejection :
    (CreatePersistentCoinAccount
        (ChaincodeStub.fresh [] storeUnavailable noFault) createA100).2
      = Response.error "rejecting endorsement: Persistent Coin AccountId:  already exist!" ∧
    (TransferPersistentCoin sampleJson
        (ChaincodeStub.fresh [("A", recordA100), ("B", recordB0)] storeUnavailable noFault)
        transferAB40).2
      = Response.error "rejecting endorsement: Persistent Coin AccountId:  does not exist!" := by
  decide

/-- C12, evaluated on the function name `DeletePersistentCoinAccount`: `Invoke`
answers success, with or without arguments; it stages no write. -/
theorem invoke_unknown_function_succeeds :
    (Invoke sampleJson (ChaincodeStub.fresh [] noFault noFault)
        "DeletePersistentCoinAccount" ["A"]).map Prod.snd
      = some (Response.success none) ∧
    (Invoke sampleJson (ChaincodeStub.fresh [] noFault noFault)
        "DeletePersistentCoinAccount" []).map Prod.snd
      = some (Response.success none) ∧
    (Invoke sampleJson (ChaincodeStub.fresh [] noFault noFault)
        "DeletePersistentCoinAccount" ["A"]).map (fun r => r.1.writes)
      = some [] := by
  decide

/-! ## Rejections and the write set (C14, C15) -/

/-- C14. No write after rejection: whenever `CreatePersistentCoinAccount` or
`TransferPersistentCoin` answers with a rejection, the write set after the call
is the write set before it, and so is the world state that would be committed. -/
theorem rejection_stages_no_write (J : JsonLib) (stub : ChaincodeStub) (request : String) :
    ((CreatePersistentCoinAccount stub request).2.isRejection = true →
        (CreatePersistentCoinAccount stub request).1.writes = stub.writes ∧
        (CreatePersistentCoinAccount stub request).1.committed = stub.committed) ∧
      ((TransferPersistentCoin J stub request).2.isRejection = true →
        (TransferPersistentCoin J stub request).1.writes = stub.writes ∧
        (TransferPersistentCoin J stub request).1.committed = stub.committed) := by
  constructor
  · rw [create_result]
    cases stub.getFault ""
    · cases stub.putFault ""
      · intro h
        exact absurd h Bool.false_ne_true
      · intro _
        exact ⟨rfl, rfl⟩
    · intro _
      exact ⟨rfl, rfl⟩
  · rw [transfer_result]
    intro _
    exact ⟨rfl, rfl⟩

/-- Instance of C14: on a store whose reads fail, `CreateAccount(A, 100)` and
`Transfer(A, B, 40)` are both rejected, and neither has staged a write. -/
theorem rejection_stages_no_write_witness :
    ((CreatePersistentCoinAccount
        (ChaincodeStub.fresh [("A", recordA100)] storeUnavailable noFault)
        createA100).1.writes = [] ∧
      (CreatePersistentCoinAccount
        (ChaincodeStub.fresh [("A", recordA100)] storeUnavailable noFault)
        createA100).1.committed = [("A", recordA100)]) ∧
    ((TransferPersistentCoin sampleJson
        (ChaincodeStub.fresh [("A", recordA100)] storeUnavailable noFault)
        createA100).1.writes = [] ∧
      (TransferPersistentCoin sampleJson
        (ChaincodeStub.fresh [("A", recordA100)] storeUnavailable noFault)
        createA100).1.committed = [("A", recordA100)]) :=
  ⟨(rejection_stages_no_write sampleJson
      (ChaincodeStub.fresh [("A", recordA100)] storeUnavailable noFault) createA100).1
      (by decide),
   (rejection_stages_no_write sampleJson
      (ChaincodeStub.fresh [("A", recordA100)] storeUnavailable noFault) createA100).2
      (by decide)⟩

/-- C15. Frame of a transfer, for every stub and every request
`(From, To, Amount)` in any wire encoding. A call of `TransferPersistentCoin`
that answers success has added exactly two writes to the write set, the first
keyed by `From` and the second by `To`, each holding the marshalled text of an
account whose `AccountID` is the key it is written under. The record under
every key other than `From` and `To` is the one stored before the call. And the
call never answers success, so the first part holds with no call to apply to. -/
theorem transfer_frame (J : JsonLib) (encode : CoinTransferContract → String)
    (stub : ChaincodeStub) (c : CoinTransferContract) :
    (∀ payload : Option String,
        (TransferPersistentCoin J stub (encode c)).2 = Response.success payload →
        ∃ a b : PersistentCoinAccount,
          a.AccountID = c.FromAccountId ∧ b.AccountID = c.ToAccountId ∧
          (TransferPersistentCoin J stub (encode c)).1.writes
            = stub.writes ++
                [(c.FromAccountId, json.Marshal J a), (c.ToAccountId, json.Marshal J b)]) ∧
      (∀ key : String, key ≠ c.FromAccountId → key ≠ c.ToAccountId →
        (TransferPersistentCoin J stub (encode c)).1.committed.lookup key
          = stub.committed.lookup key) ∧
      (TransferPersistentCoin J stub (encode c)).2.isRejection = true := by
  rw [transfer_result]
  exact ⟨fun _ h => Response.noConfusion h, fun _ _ _ => rfl, rfl⟩

/-! ## Decoding of stored records (C16, C17) -/

/-- C16, evaluated on a world state with a well-formed record for `A` and
corrupt bytes under `B`, and the request `Transfer(A, B, 40)`: the rejection
names the sender side, whose record is well-formed, not the receiver side; and
on the world state where both records are well-formed the answer is the same
rejection, so no decoded balance reaches the check of line 110. -/
theorem decoding_rejection_blames_sender :
    (TransferPersistentCoin sampleJson
        (ChaincodeStub.fresh [("A", recordA100), ("B", recordCorrupt)] noFault noFault)
        transferAB40).2
      = Response.error "rejecting endorsement: json unmarshaling failed for from account" ∧
    (TransferPersistentCoin sampleJson
        (ChaincodeStub.fresh [("A", recordA100), ("B", recordCorrupt)] noFault noFault)
        transferAB40).2
      ≠ Response.error "rejecting endorsement: json unmarshaling failed for to account" ∧
    (TransferPersistentCoin sampleJson
        (ChaincodeStub.fresh [("A", recordA100), ("B", recordB40)] noFault noFault)
        transferAB40).2
      = Response.error "rejecting endorsement: json unmarshaling failed for from account" := by
  decide

/-- C17, evaluated from the empty world state on a store without faults:
`CreateAccount(A, 100)` succeeds and commits its request text under the empty
key, leaving no record under `A`; `CreateAccount(B, 0)` then succeeds and
replaces that one record, again leaving none under `A` or `B`; and a transfer
on the resulting state is rejected. -/
theorem created_records_share_empty_key :
    (CreatePersistentCoinAccount (ChaincodeStub.fresh [] noFault noFault) createA100).2
      = Response.success none ∧
    (CreatePersistentCoinAccount (ChaincodeStub.fresh [] noFault noFault) createA100).1.committed
      = [("", createA100)] ∧
    (CreatePersistentCoinAccount
        (ChaincodeStub.fresh [("", createA100)] noFault noFault) createB0).2
      = Response.success none ∧
    (CreatePersistentCoinAccount
        (ChaincodeStub.fresh [("", createA100)] noFault noFault) createB0).1.committed
      = [("", createB0)] ∧
    (CreatePersistentCoinAccount
        (ChaincodeStub.fresh [("", createA100)] noFault noFault) createB0).1.committed.lookup "A"
      = none ∧
    (TransferPersistentCoin sampleJson
        (ChaincodeStub.fresh [("", createB0)] noFault noFault) transferAB0).2.isRejection
      = true := by
  decide

/-! ## Transfers there and back (C18) -/

/-- C18, evaluated on `A = 100`, `B = 0`: `Transfer(A, B, 40)` is rejected, so is
`Transfer(B, A, 40)` after it, and so is the zero-amount `Transfer(A, B, 0)`;
the world state stays as it was. -/
theorem inverse_transfers_both_rejected :
    (TransferPersistentCoin sampleJson
        (ChaincodeStub.fresh [("A", recordA100), ("B", recordB0)] noFault noFault)
        transferAB40).2.isRejection = true ∧
    (TransferPersistentCoin sampleJson
        (ChaincodeStub.fresh
          (TransferPersistentCoin sampleJson
            (ChaincodeStub.fresh [("A", recordA100), ("B", recordB0)] noFault noFault)
            transferAB40).1.committed noFault noFault)
        transferBA40).2.isRejection = true ∧
    (TransferPersistentCoin sampleJson
        (ChaincodeStub.fresh [("A", recordA100), ("B", recordB0)] noFault noFault)
        transferAB0).2
      = Response.error "rejecting endorsement: json unmarshaling failed for from account" ∧
    (TransferPersistentCoin sampleJson
        (ChaincodeStub.fresh [("A", recordA100), ("B", recordB0)] noFault noFault)
        transferAB40).1.committed = [("A", recordA100), ("B", recordB0)] := by
  decide

/-! ## Dispatch (C19) -/

/-- C19. Dispatch: for each of the two recognised function names and every
argument list with a first element, `Invoke` returns what the named business
function returns on that first element; with an empty argument list the index
expression `args[0]` is out of range for both names. -/
theorem invoke_dispatch (J : JsonLib) (stub : ChaincodeStub) (arg0 : String)
    (rest : List String) :
    Invoke J stub "CreatePersistentCoinAccount" (arg0 :: rest)
        = some (CreatePersistentCoinAccount stub arg0) ∧
      Invoke J stub "TransferPersistentCoin" (arg0 :: rest)
        = some (TransferPersistentCoin J stub arg0) ∧
      Invoke J stub "CreatePersistentCoinAccount" [] = none ∧
      Invoke J stub "TransferPersistentCoin" [] = none := by
  refine ⟨?_, ?_, ?_, ?_⟩ <;> simp [Invoke]

end Chaincode
